import Mathlib

/-!
Verification of the subnet-rayai-node agent core.

Shallow embedding of the Go sources:
  * `ray/service.go`      — role reconciliation (GetRole, SetupNodeByRole,
    StartHead, StartWorker, StopNode, ClearRayData, IsRunning).
  * `resource/manager.go` — telemetry caches (GetGeoLocation, GetBandwidth)
    and the background updater loops.
  * the resource-manager variant with registration
    (Manager.SendHeartbeat, Manager.RegisterNode, Manager.IsRegistered).

Effectful Go code is modelled by pure functions over explicit inputs: every
external outcome (HTTP transport result, status code, body decode result,
exec outcome, clock reading) is a parameter, and the calls a function issues
(start / stop / clear-data / register / heartbeat POST) are returned as an
explicit trace list.
-/

namespace RayAI

/-! ## ray/service.go : data model -/

/-- `RoleInfo` from ray/service.go: the decoded role-assignment response.
In Go the role is the string type `NodeRole`; validation against the three
known constants happens after decoding, so the field is a plain string here. -/
structure RoleInfo where
  role : String
  headIP : String
deriving DecidableEq, Repr

/-- The constant `RoleHead` of ray/service.go. -/
def RoleHead : String := "head"

/-- The constant `RoleWorker` of ray/service.go. -/
def RoleWorker : String := "worker"

/-- The constant `RoleNone` of ray/service.go. -/
def RoleNone : String := "none"

deriving instance DecidableEq for Except

/-- Outcome of the role-query HTTP round trip in `Service.GetRole`:
either the transport fails (`client.Do` returns an error), or a response
arrives with a status code and a body whose JSON decode into `RoleInfo`
either succeeds or fails. -/
inductive RoleHTTP
  | unreachable
  | response (status : Nat) (body : Except String RoleInfo)
deriving DecidableEq, Repr

/-- External calls a reconciliation tick can issue, at the granularity the
source uses: one `ray start --head` exec, one `ray start --address` exec,
one `ray stop` exec, one `ClearRayData` invocation. -/
inductive Action
  | startHead
  | startWorker (headIP : String)
  | stopCmd
  | clearData
deriving DecidableEq, Repr

/-- Result of one process-controller operation: the returned value or error,
the running state of the local ray process afterwards, and the calls issued. -/
structure StepResult (α : Type) where
  result : Except String α
  running : Bool
  trace : List Action
deriving Repr

/-! ## ray/service.go : operations -/

/-- Substring test used by `IsRunning` (Go `strings.Contains`):
`pat` occurs in `s` iff splitting `s` on `pat` yields more than one piece.
The patterns used by the source are nonempty literals. -/
def containsSub (s pat : String) : Bool :=
  (s.splitOn pat).length != 1

/-- `Service.IsRunning` (ray/service.go lines 64-78). Input is the combined
outcome of `exec ray status`: an error, or the captured output text.
On a command error the node is assumed not running; otherwise the output is
scanned for the running / not-running indicator strings. -/
def IsRunning (statusCmd : Except String String) : Bool :=
  match statusCmd with
  | .error _ => false
  | .ok output =>
      containsSub output "Ray runtime started" ||
      containsSub output "ClientServerID:" ||
      !containsSub output "Ray is not running"

/-- `Service.GetRole` (ray/service.go lines 81-154).
`managerIP` is the configured manager address; `resourcesResult` is the
outcome of the `s.GetResources()` call (checked at line 95; the concrete
`GetResources` in this file always returns a nil error, but the call site
handles an error so the branch is kept); `http` is the role-query round
trip. Hostname lookup never fails the call (falls back to "unknown"),
and `json.Marshal` / `http.NewRequest` on this fixed shape cannot fail,
so they are not parameters. -/
def GetRole (managerIP : String) (resourcesResult : Except String Unit)
    (http : RoleHTTP) : Except String RoleInfo :=
  if managerIP = "" then
    .ok ⟨RoleHead, ""⟩
  else
    match resourcesResult with
    | .error e => .error ("failed to get resource information: " ++ e)
    | .ok _ =>
      match http with
      | .unreachable =>
          -- manager unreachable: default to head role for resilience
          .ok ⟨RoleHead, ""⟩
      | .response status body =>
          if status != 200 then
            -- manager returned an error status: default to head role
            .ok ⟨RoleHead, ""⟩
          else
            match body with
            | .error e => .error ("failed to decode response: " ++ e)
            | .ok roleInfo =>
                if roleInfo.role != RoleHead && roleInfo.role != RoleWorker &&
                    roleInfo.role != RoleNone then
                  .error ("invalid role received from manager: " ++ roleInfo.role)
                else if roleInfo.role == RoleWorker && roleInfo.headIP == "" then
                  .error "received worker role from manager but no head IP was provided"
                else
                  .ok roleInfo

/-- `Service.StartHead` (ray/service.go lines 204-229). `running` is what
`s.IsRunning()` reports at entry; `execOk` the outcome of the
`ray start --head` exec. The exec is in the trace exactly when attempted. -/
def StartHead (running : Bool) (execOk : Bool) : StepResult String :=
  if running then
    ⟨.error "ray is already running, please stop it first", running, []⟩
  else if execOk then
    ⟨.ok "head-6379", true, [.startHead]⟩
  else
    ⟨.error "failed to start Ray head node", false, [.startHead]⟩

/-- Dot-to-dash rewriting of `strings.Replace(headIP, ".", "-", -1)` used to
build the worker id. -/
def dashed (headIP : String) : String :=
  headIP.map fun c => if c = '.' then '-' else c

/-- `Service.StartWorker` (ray/service.go lines 232-255). -/
def StartWorker (headIP : String) (running : Bool) (execOk : Bool) :
    StepResult String :=
  if running then
    ⟨.error "ray is already running locally, please stop it first", running, []⟩
  else if execOk then
    ⟨.ok ("worker-" ++ dashed headIP), true, [.startWorker headIP]⟩
  else
    ⟨.error "failed to start Ray worker node", false, [.startWorker headIP]⟩

/-- `Service.StopNode` (ray/service.go lines 258-272). Refuses when not
running; otherwise runs `ray stop`, whose failure leaves the process as is. -/
def StopNode (running : Bool) (execOk : Bool) : StepResult Unit :=
  if !running then
    ⟨.error "ray is not running, nothing to stop", running, []⟩
  else if execOk then
    ⟨.ok (), false, [.stopCmd]⟩
  else
    ⟨.error "failed to stop Ray nodes", running, [.stopCmd]⟩

/-- `Service.ClearRayData` (ray/service.go lines 386-406). If /tmp/ray does
not exist there is nothing to clean; otherwise the `rm -rf` exec decides. -/
def ClearRayData (dirExists rmOk : Bool) : Except String Unit :=
  if !dirExists then .ok ()
  else if rmOk then .ok ()
  else .error "failed to clear Ray data"

/-- External-world inputs for one reconciliation tick, besides the initial
running state: exec outcomes and the session-directory state. -/
structure TickEnv where
  stopOk : Bool
  dirExists : Bool
  rmOk : Bool
  startHeadOk : Bool
  startWorkerOk : Bool
deriving DecidableEq, Repr

/-- `Service.SetupNodeByRole` (ray/service.go lines 157-201), given the
result of the inner `s.GetRole()` call, the running state the tick observes
(the process state does not change between the repeated `IsRunning` probes
of one tick unless a start or stop in the tick changes it), and the exec
outcomes. The trace records, in order, the stop / clear-data / start calls
the tick issues; the `ClearRayData` invocation is traced at its call site
and its failure is logged, not fatal. -/
def SetupNodeByRole (roleResult : Except String RoleInfo) (running : Bool)
    (env : TickEnv) : StepResult String :=
  match roleResult with
  | .error e => ⟨.error ("failed to determine node role: " ++ e), running, []⟩
  | .ok roleInfo =>
    if roleInfo.role == RoleNone then
      if running then
        let st := StopNode running env.stopOk
        match st.result with
        | .error e =>
            ⟨.error ("failed to stop Ray: " ++ e), st.running, st.trace⟩
        | .ok _ =>
            -- clear data; on failure only a warning is logged
            ⟨.ok "stopped", st.running, st.trace ++ [.clearData]⟩
      else
        ⟨.ok "idle", running, []⟩
    else if running then
      ⟨.error "ray is already running, please stop it first", running, []⟩
    else if roleInfo.role == RoleHead then
      StartHead running env.startHeadOk
    else if roleInfo.role == RoleWorker then
      if roleInfo.headIP == "" then
        ⟨.error "cannot start worker: no head IP provided", running, []⟩
      else
        StartWorker roleInfo.headIP running env.startWorkerOk
    else
      ⟨.error ("unknown role: " ++ roleInfo.role), running, []⟩

/-! ## resource/manager.go : telemetry caches

Time is modelled as a `Nat` clock (`time.Now()` readings); `t.Before(e)`
is `t < e`. One call to `GetBandwidth` / `GetGeoLocation` reads the clock
and the cache twice: once under the shared read lock and once again after
acquiring the exclusive write lock (the double-checked pattern), so the
model takes both observations as inputs; in a single-threaded run the two
coincide. The float64 measurement fields are opaque payloads to the cache
logic (never computed with), modelled as integers. -/

/-- `Bandwidth` record of resource/manager.go (float64 speeds as opaque
integer payloads). -/
structure Bandwidth where
  downloadMbps : Int
  uploadMbps : Int
  pingMs : Int
  jitter : Int
  measuredAt : Int
deriving DecidableEq, Repr

/-- `GeoLocation` record of resource/manager.go (float64 coordinates as
opaque integer payloads). -/
structure GeoLocation where
  ip : String
  city : String
  region : String
  country : String
  latitude : Int
  longitude : Int
deriving DecidableEq, Repr

/-- The bandwidth half of the `Manager` state: `bwCache` / `bwExpiry`. -/
structure BwState where
  cache : Option Bandwidth
  expiry : Nat
deriving DecidableEq, Repr

/-- The geo half of the `Manager` state: `geoCache` / `geoExpiry`. -/
structure GeoState where
  cache : Option GeoLocation
  expiry : Nat
deriving DecidableEq, Repr

/-- TTL of the bandwidth cache: 24 hours, in seconds. -/
def bwTTL : Nat := 24 * 3600

/-- TTL of the geo-location cache: 4 hours, in seconds. -/
def geoTTL : Nat := 4 * 3600

/-- The freshness test of `Manager.GetBandwidth`
(`!forceUpdate && m.bwCache != nil && time.Now().Before(m.bwExpiry)`):
the cached value when the check passes, `none` otherwise. -/
def bwHit (force : Bool) (now : Nat) (st : BwState) : Option Bandwidth :=
  match st.cache with
  | some v => if force = false ∧ now < st.expiry then some v else none
  | none => none

/-- The freshness test of `Manager.GetGeoLocation`
(`m.geoCache != nil && time.Now().Before(m.geoExpiry)`; no force flag). -/
def geoHit (now : Nat) (st : GeoState) : Option GeoLocation :=
  match st.cache with
  | some v => if now < st.expiry then some v else none
  | none => none

/-- `Manager.GetBandwidth` (resource/manager.go lines 197-248).
`(now1, st1)` is the observation under the read lock, `(now2, st2)` the one
after acquiring the write lock; `fetch` is the combined outcome of the
speedtest (server fetch error, empty server list, or the measured values —
the Go loop body always returns on its first iteration, so the trailing
"failed to complete" return is unreachable). Returns the call result, the
cache state after the call, and how many fetches this call performed.
On fetch failure the cache state is left untouched. -/
def GetBandwidth (force : Bool) (now1 : Nat) (st1 : BwState)
    (now2 : Nat) (st2 : BwState) (fetch : Except String Bandwidth) :
    Except String Bandwidth × BwState × Nat :=
  match bwHit force now1 st1 with
  | some v => (.ok v, st1, 0)
  | none =>
    match bwHit force now2 st2 with
    | some v => (.ok v, st2, 0)
    | none =>
      match fetch with
      | .error e => (.error e, st2, 1)
      | .ok bw => (.ok bw, ⟨some bw, now2 + bwTTL⟩, 1)

/-- `Manager.GetGeoLocation` (resource/manager.go lines 141-194), same shape
as `GetBandwidth` but with no force flag and the 4-hour TTL; `fetch` is the
combined outcome of the ip-api.com request (transport error, body read
error, JSON parse error, or the parsed record). -/
def GetGeoLocation (now1 : Nat) (st1 : GeoState) (now2 : Nat) (st2 : GeoState)
    (fetch : Except String GeoLocation) :
    Except String GeoLocation × GeoState × Nat :=
  match geoHit now1 st1 with
  | some v => (.ok v, st1, 0)
  | none =>
    match geoHit now2 st2 with
    | some v => (.ok v, st2, 0)
    | none =>
      match fetch with
      | .error e => (.error e, st2, 1)
      | .ok geo => (.ok geo, ⟨some geo, now2 + geoTTL⟩, 1)

/-! ## resource/manager.go : background updater loops -/

/-- Retry delay of `Manager.StartBackgroundUpdater` after a failed refresh:
1 minute, in seconds. -/
def retryDelay : Nat := 60

/-- The sleep the geo updater goroutine performs after one refresh attempt
(resource/manager.go lines 253-262): 1 minute after an error, else the
4-hour nominal period. -/
def geoUpdaterDelay (result : Except String GeoLocation) : Nat :=
  match result with
  | .error _ => retryDelay
  | .ok _ => geoTTL

/-- The sleep the bandwidth updater goroutine performs after one refresh
attempt (resource/manager.go lines 265-274); the attempt itself is
`GetBandwidth(true)`, i.e. forced. 1 minute after an error, else the
24-hour nominal period. -/
def bwUpdaterDelay (result : Except String Bandwidth) : Nat :=
  match result with
  | .error _ => retryDelay
  | .ok _ => bwTTL

/-- The sequence of sleeps an updater loop performs for a given sequence of
refresh outcomes (one outcome per iteration). -/
def updaterDelays (delay : Except String α → Nat)
    (outcomes : List (Except String α)) : List Nat :=
  outcomes.map delay

/-! ## registration-variant resource manager : SendHeartbeat / RegisterNode -/

/-- Registration state of the `Manager`: the explicit `registered` flag. -/
structure RegState where
  registered : Bool
deriving DecidableEq, Repr

/-- Outcome of the registration HTTP round trip in `Manager.RegisterNode`:
transport failure, or a response with a status code and whether the JSON
decode of the response body succeeds. -/
inductive RegHTTP
  | unreachable
  | response (status : Nat) (decodeOk : Bool)
deriving DecidableEq, Repr

/-- Control-plane calls the registration client issues. -/
inductive RegAction
  | registerCall
  | heartbeatPost
deriving DecidableEq, Repr

/-- `Manager.RegisterNode` (registration-variant manager, lines 359-441).
`GetResources(true)` in that file always returns a nil error, and the geo /
bandwidth lookups are best-effort (warn and continue), so the only inputs
that decide the outcome are the configured manager IP and the HTTP round
trip. The `registered` flag is set exactly in the full-success branch
(status 200 and parsed response). -/
def RegisterNode (managerIP : String) (st : RegState) (http : RegHTTP) :
    Except String Unit × RegState :=
  if managerIP = "" then
    (.error "manager IP not configured", st)
  else
    match http with
    | .unreachable => (.error "failed to connect to manager", st)
    | .response status decodeOk =>
        if status != 200 then
          (.error "registration failed with status", st)
        else if !decodeOk then
          (.error "failed to parse registration response", st)
        else
          (.ok (), { st with registered := true })

/-- `Manager.IsRegistered` (lines 444-446). -/
def IsRegistered (st : RegState) : Bool :=
  st.registered

/-- `Manager.SendHeartbeat` (registration-variant manager, lines 111-142).
If not yet registered, `RegisterNode` runs first and its failure aborts the
heartbeat; otherwise the heartbeat POST is sent, whose outcome is
`hbHTTP` (`none` = transport failure, `some status` = response status).
Returns the result, the registration state after the call, and the trace
of control-plane calls in order. -/
def SendHeartbeat (managerIP : String) (st : RegState) (regHTTP : RegHTTP)
    (hbHTTP : Option Nat) : Except String Unit × RegState × List RegAction :=
  if managerIP = "" then
    (.error "manager IP not configured", st, [])
  else
    let reg : Except String Unit × RegState × List RegAction :=
      if st.registered then (.ok (), st, [])
      else
        let r := RegisterNode managerIP st regHTTP
        (r.1, r.2, [.registerCall])
    match reg.1 with
    | .error e =>
        (.error ("cannot send heartbeat, node not registered: " ++ e),
          reg.2.1, reg.2.2)
    | .ok _ =>
        match hbHTTP with
        | none => (.error "failed to send heartbeat", reg.2.1,
            reg.2.2 ++ [.heartbeatPost])
        | some status =>
            if status != 200 then
              (.error "heartbeat failed with status", reg.2.1,
                reg.2.2 ++ [.heartbeatPost])
            else
              (.ok (), reg.2.1, reg.2.2 ++ [.heartbeatPost])

/-- One Manager operation touching the registration flag, for stating the
process-lifetime monotonicity of `registered`: an explicit `RegisterNode`
call or a `SendHeartbeat` call, each with its external inputs. No other
method of the Manager assigns the flag. -/
inductive MgrOp
  | register (http : RegHTTP)
  | heartbeat (regHTTP : RegHTTP) (hbHTTP : Option Nat)
deriving Repr

/-- Run one Manager operation, keeping only the registration state. -/
def runOp (managerIP : String) (st : RegState) : MgrOp → RegState
  | .register http => (RegisterNode managerIP st http).2
  | .heartbeat regHTTP hbHTTP => (SendHeartbeat managerIP st regHTTP hbHTTP).2.1

/-- Run a sequence of Manager operations from a starting state. -/
def runOps (managerIP : String) (st : RegState) : List MgrOp → RegState
  | [] => st
  | op :: rest => runOps managerIP (runOp managerIP st op) rest

/-! ## Theorems -/

/-- C1. For every reconciliation tick in which the control plane assigns
role Head or Worker while the local process is running, `SetupNodeByRole`
issues no start and no stop call, returns the "already running" error for
that tick, and leaves the process state unchanged. -/
theorem c1_head_or_worker_while_running (ri : RoleInfo) (running : Bool)
    (env : TickEnv) (hrole : ri.role = RoleHead ∨ ri.role = RoleWorker)
    (hrun : running = true) :
    SetupNodeByRole (.ok ri) running env =
      ⟨.error "ray is already running, please stop it first", running, []⟩ := by
  rcases ri with ⟨role, headIP⟩
  subst hrun
  rcases hrole with h | h <;> simp only [RoleHead, RoleWorker] at h <;> subst h <;> rfl

/-- Witness for C1 at a concrete head assignment with the process running. -/
theorem c1_witness :
    SetupNodeByRole (.ok ⟨"head", ""⟩) true ⟨true, true, true, true, true⟩ =
      ⟨.error "ray is already running, please stop it first", true, []⟩ :=
  c1_head_or_worker_while_running ⟨"head", ""⟩ true ⟨true, true, true, true, true⟩
    (Or.inl rfl) rfl

/-- C4. For a tick with assignment None whose stop command succeeds: while
the process is running, exactly one stop call is issued followed by one
session-data cleanup call and the status is "stopped" — for every cleanup
outcome (`dirExists`, `rmOk` are unconstrained, so a cleanup failure does
not fail the tick); while not running, the status is "idle" and no stop or
cleanup call occurs. -/
theorem c4_none_assignment (ri : RoleInfo) (running : Bool) (env : TickEnv)
    (hrole : ri.role = RoleNone) (hstop : env.stopOk = true) :
    (running = true →
      SetupNodeByRole (.ok ri) running env =
        ⟨.ok "stopped", false, [.stopCmd, .clearData]⟩) ∧
    (running = false →
      SetupNodeByRole (.ok ri) running env = ⟨.ok "idle", false, []⟩) := by
  rcases ri with ⟨role, headIP⟩
  rcases env with ⟨stopOk, dirExists, rmOk, shOk, swOk⟩
  simp only [RoleNone] at hrole
  simp only at hstop
  subst hrole; subst hstop
  constructor <;> intro h <;> subst h <;> rfl

/-- Witness for C4: a None assignment with the process running, the stop
succeeding and the cleanup failing, and one with the process not running. -/
theorem c4_witness :
    SetupNodeByRole (.ok ⟨"none", ""⟩) true ⟨true, true, false, true, true⟩ =
      ⟨.ok "stopped", false, [.stopCmd, .clearData]⟩ ∧
    SetupNodeByRole (.ok ⟨"none", ""⟩) false ⟨true, true, false, true, true⟩ =
      ⟨.ok "idle", false, []⟩ :=
  ⟨(c4_none_assignment ⟨"none", ""⟩ true ⟨true, true, false, true, true⟩ rfl rfl).1 rfl,
   (c4_none_assignment ⟨"none", ""⟩ false ⟨true, true, false, true, true⟩ rfl rfl).2 rfl⟩

/-- C5. A Worker assignment with an empty head address is rejected:
`GetRole` returns the validation error, the tick built on it issues no
calls at all, and even fed directly to `SetupNodeByRole` the defensive
check rejects it before any start call. -/
theorem c5_worker_empty_head (managerIP : String) (running : Bool)
    (env : TickEnv) (hmip : ¬ managerIP = "") :
    GetRole managerIP (.ok ()) (.response 200 (.ok ⟨RoleWorker, ""⟩)) =
      .error "received worker role from manager but no head IP was provided" ∧
    SetupNodeByRole
        (GetRole managerIP (.ok ()) (.response 200 (.ok ⟨RoleWorker, ""⟩)))
        running env =
      ⟨.error ("failed to determine node role: " ++
        "received worker role from manager but no head IP was provided"),
        running, []⟩ ∧
    SetupNodeByRole (.ok ⟨RoleWorker, ""⟩) false env =
      ⟨.error "cannot start worker: no head IP provided", false, []⟩ := by
  have hA : GetRole managerIP (.ok ()) (.response 200 (.ok ⟨RoleWorker, ""⟩)) =
      .error "received worker role from manager but no head IP was provided" := by
    unfold GetRole
    rw [if_neg hmip]
    rfl
  refine ⟨hA, ?_, ?_⟩
  · rw [hA]
    rfl
  · rfl

/-- Witness for C5 at a concrete manager address. -/
theorem c5_witness :
    GetRole "10.0.0.7" (.ok ()) (.response 200 (.ok ⟨RoleWorker, ""⟩)) =
      .error "received worker role from manager but no head IP was provided" ∧
    SetupNodeByRole (.ok ⟨RoleWorker, ""⟩) false ⟨true, true, true, true, true⟩ =
      ⟨.error "cannot start worker: no head IP provided", false, []⟩ :=
  ⟨(c5_worker_empty_head "10.0.0.7" true ⟨true, true, true, true, true⟩
      (by decide)).1,
   (c5_worker_empty_head "10.0.0.7" true ⟨true, true, true, true, true⟩
      (by decide)).2.2⟩

/-- C10. When the status probe itself errors, `IsRunning` reports false;
consequently a start is never blocked by the already-running guard (the
start exec is attempted) and a stop is always refused. -/
theorem c10_status_error_not_running (e : String) (execOk : Bool) :
    IsRunning (.error e) = false ∧
    (StartHead (IsRunning (.error e)) execOk).trace = [Action.startHead] ∧
    StopNode (IsRunning (.error e)) execOk =
      ⟨.error "ray is not running, nothing to stop", false, []⟩ := by
  refine ⟨rfl, ?_, rfl⟩
  cases execOk <;> rfl

/-- C3, counterexample. The claim includes malformed response bodies among
the inputs for which `GetRole` yields the Head fallback with no error; in
the code a body that fails to decode (status 200, bad JSON) produces a
"failed to decode response" error instead, so the tick fails rather than
falling back to Head. -/
theorem c3_counterexample :
    GetRole "10.0.0.7" (.ok ()) (.response 200 (.error "unexpected end of input")) ≠
      .ok ⟨RoleHead, ""⟩ ∧
    GetRole "10.0.0.7" (.ok ()) (.response 200 (.error "unexpected end of input")) =
      .error ("failed to decode response: " ++ "unexpected end of input") :=
  ⟨by decide, rfl⟩

/-- C3, amended. For every tick in which the role query is unreachable or
returns a non-success HTTP status, `GetRole` yields role Head with no
error, and if the local process is not running the start-as-head exec
follows; a malformed response body instead yields a decode error for the
tick, with no fallback and no start call. -/
theorem c3_fallback_head (managerIP : String) (http : RoleHTTP) (env : TickEnv)
    (e : String) (hmip : ¬ managerIP = "")
    (hfail : http = .unreachable ∨
      ∃ s b, http = .response s b ∧ ¬ s = 200) :
    GetRole managerIP (.ok ()) http = .ok ⟨RoleHead, ""⟩ ∧
    (SetupNodeByRole (.ok ⟨RoleHead, ""⟩) false env).trace = [Action.startHead] ∧
    GetRole managerIP (.ok ()) (.response 200 (.error e)) =
      .error ("failed to decode response: " ++ e) ∧
    SetupNodeByRole (GetRole managerIP (.ok ()) (.response 200 (.error e)))
        false env =
      ⟨.error ("failed to determine node role: " ++
        ("failed to decode response: " ++ e)), false, []⟩ := by
  have hdecode : GetRole managerIP (.ok ()) (.response 200 (.error e)) =
      .error ("failed to decode response: " ++ e) := by
    unfold GetRole
    rw [if_neg hmip]
    rfl
  refine ⟨?_, ?_, hdecode, ?_⟩
  · rcases hfail with h | ⟨s, b, h, hs⟩
    · subst h
      unfold GetRole
      rw [if_neg hmip]
    · subst h
      unfold GetRole
      rw [if_neg hmip]
      have : (s != 200) = true := by
        simp [bne_iff_ne, hs]
      simp only [this, if_true]
  · rcases env with ⟨stopOk, dirExists, rmOk, shOk, swOk⟩
    cases shOk <;> rfl
  · rw [hdecode]
    rfl

/-- Witness for C3 (amended) at an unreachable control plane. -/
theorem c3_witness :
    GetRole "10.0.0.7" (.ok ()) .unreachable = .ok ⟨RoleHead, ""⟩ ∧
    (SetupNodeByRole (.ok ⟨RoleHead, ""⟩) false
      ⟨true, true, true, true, true⟩).trace = [Action.startHead] :=
  ⟨(c3_fallback_head "10.0.0.7" .unreachable ⟨true, true, true, true, true⟩ "x"
      (by decide) (Or.inl rfl)).1,
   (c3_fallback_head "10.0.0.7" .unreachable ⟨true, true, true, true, true⟩ "x"
      (by decide) (Or.inl rfl)).2.1⟩

/-- A concrete bandwidth record used by counterexamples and witnesses. -/
def bw0 : Bandwidth := ⟨100, 50, 10, 2, 5⟩

/-- A concrete geo-location record used by witnesses. -/
def geo0 : GeoLocation := ⟨"1.2.3.4", "Hanoi", "HN", "Vietnam", 21, 105⟩

/-- C2, counterexample. The claim says a cached value that has expired
"remains servable by subsequent non-forced Get calls" after a failed
refresh. In the code the freshness check requires the clock to be before
the expiry, so an expired value is never returned: with a cached value
whose expiry is 10, a non-forced call at time 20 whose fetch fails returns
the error and leaves the cache untouched (the true part), but the
subsequent non-forced call at time 21 with a failing fetch again returns
the error — it does not serve the expired cached value. -/
theorem c2_counterexample :
    (GetBandwidth false 20 ⟨some bw0, 10⟩ 20 ⟨some bw0, 10⟩
        (.error "fetch failed")).2.1 = ⟨some bw0, 10⟩ ∧
    (GetBandwidth false 21 ⟨some bw0, 10⟩ 21 ⟨some bw0, 10⟩
        (.error "fetch failed")).1 ≠ .ok bw0 ∧
    (GetBandwidth false 21 ⟨some bw0, 10⟩ 21 ⟨some bw0, 10⟩
        (.error "fetch failed")).1 = .error "fetch failed" :=
  ⟨rfl, by decide, rfl⟩

/-- C2, amended. A Get whose fetch fails returns the error while leaving
the previously cached value untouched, and the cache never reverts to "no
value"; the cached value remains servable by subsequent non-forced calls
made while the clock is before its expiry, but once expired it is no
longer returned — the call re-fetches and surfaces the fetch error on
failure. Stated for both the bandwidth and the geo-location cache. -/
theorem c2_fetch_failure_preserves_cache (force : Bool) (now now2 : Nat)
    (st : BwState) (gst : GeoState) (e : String) (v : Bandwidth)
    (g : GeoLocation) (fetch : Except String Bandwidth)
    (gfetch : Except String GeoLocation)
    (hv : st.cache = some v) (hg : gst.cache = some g) :
    (GetBandwidth force now st now st (.error e)).2.1 = st ∧
    (GetGeoLocation now gst now gst (.error e)).2.1 = gst ∧
    ((GetBandwidth force now st now st (.error e)).1 = .error e ∨
      (GetBandwidth force now st now st (.error e)).1 = .ok v) ∧
    ((GetGeoLocation now gst now gst (.error e)).1 = .error e ∨
      (GetGeoLocation now gst now gst (.error e)).1 = .ok g) ∧
    (now2 < st.expiry →
      (GetBandwidth false now2 st now2 st fetch).1 = .ok v) ∧
    (now2 < gst.expiry →
      (GetGeoLocation now2 gst now2 gst gfetch).1 = .ok g) := by
  rcases st with ⟨c, exp⟩
  rcases gst with ⟨gc, gexp⟩
  simp only at hv hg
  subst hv; subst hg
  refine ⟨?_, ?_, ?_, ?_, ?_, ?_⟩
  · by_cases h : force = false ∧ now < exp <;>
      simp [GetBandwidth, bwHit, h]
  · by_cases h : now < gexp <;>
      simp [GetGeoLocation, geoHit, h]
  · by_cases h : force = false ∧ now < exp <;>
      simp [GetBandwidth, bwHit, h]
  · by_cases h : now < gexp <;>
      simp [GetGeoLocation, geoHit, h]
  · intro hlt
    simp [GetBandwidth, bwHit, hlt]
  · intro hlt
    simp [GetGeoLocation, geoHit, hlt]

/-- Witness for C2 (amended): a fresh cached value is served without
fetching, and a failed refresh leaves the state untouched. -/
theorem c2_witness :
    (GetBandwidth false 20 ⟨some bw0, 10⟩ 20 ⟨some bw0, 10⟩
        (.error "down")).2.1 = ⟨some bw0, 10⟩ ∧
    (GetBandwidth false 5 ⟨some bw0, 10⟩ 5 ⟨some bw0, 10⟩
        (.error "down")).1 = .ok bw0 := by
  have h := c2_fetch_failure_preserves_cache false 20 5 ⟨some bw0, 10⟩
    ⟨some geo0, 10⟩ "down" bw0 geo0 (.error "down") (.error "down") rfl rfl
  exact ⟨h.1, h.2.2.2.2.1 (by decide)⟩

/-- C8. Within the TTL window after one successful fetch, every non-forced
Get returns the cached value with zero fetches (the counter stays at the
single initial fetch): a successful fetch at time `now` installs the value
with expiry `now + bwTTL` (one fetch), a later non-forced call before that
expiry returns it with zero fetches for every fetch outcome, and on the
double-checked path — first observation stale, second observation (after
acquiring the write lock) fresh because a concurrent caller refreshed —
the fresh value is returned with zero fetches. -/
theorem c8_ttl_window_no_refetch (now now2 now1 nowB : Nat)
    (st st1 st2 : BwState) (bw w : Bandwidth)
    (fetch fetch2 : Except String Bandwidth)
    (hmiss : bwHit false now st = none)
    (hlt : now2 < now + bwTTL)
    (hmiss1 : bwHit false now1 st1 = none)
    (hw : st2.cache = some w) (hfresh : nowB < st2.expiry) :
    GetBandwidth false now st now st (.ok bw) =
      (.ok bw, ⟨some bw, now + bwTTL⟩, 1) ∧
    GetBandwidth false now2 ⟨some bw, now + bwTTL⟩ now2 ⟨some bw, now + bwTTL⟩
        fetch = (.ok bw, ⟨some bw, now + bwTTL⟩, 0) ∧
    GetBandwidth false now1 st1 nowB st2 fetch2 = (.ok w, st2, 0) := by
  refine ⟨?_, ?_, ?_⟩
  · simp [GetBandwidth, hmiss]
  · simp [GetBandwidth, bwHit, hlt]
  · have h2 : bwHit false nowB st2 = some w := by
      unfold bwHit
      rw [hw]
      simp [hfresh]
    simp [GetBandwidth, hmiss1, h2]

/-- Witness for C8: fetch once into an empty cache at time 100, read it
back at time 200, and take the double-checked path against a concurrently
refreshed state. -/
theorem c8_witness :
    GetBandwidth false 100 ⟨none, 0⟩ 100 ⟨none, 0⟩ (.ok bw0) =
      (.ok bw0, ⟨some bw0, 100 + bwTTL⟩, 1) ∧
    GetBandwidth false 200 ⟨some bw0, 100 + bwTTL⟩ 200 ⟨some bw0, 100 + bwTTL⟩
        (.error "down") = (.ok bw0, ⟨some bw0, 100 + bwTTL⟩, 0) ∧
    GetBandwidth false 400 ⟨none, 0⟩ 400 ⟨some bw0, 500⟩ (.error "down") =
      (.ok bw0, ⟨some bw0, 500⟩, 0) :=
  c8_ttl_window_no_refetch 100 200 400 400 ⟨none, 0⟩ ⟨none, 0⟩ ⟨some bw0, 500⟩
    bw0 bw0 (.error "down") (.error "down") rfl (by decide) rfl rfl (by decide)

/-- In an updater loop, as long as every refresh attempt fails, every wait
is the short retry delay (shared helper for the two loops). -/
theorem updaterDelays_all_error {α : Type} (delay : Except String α → Nat)
    (hdelay : ∀ e, delay (.error e) = retryDelay)
    (l : List (Except String α)) (h : ∀ r ∈ l, ∃ e, r = .error e) :
    updaterDelays delay l = List.replicate l.length retryDelay := by
  induction l with
  | nil => rfl
  | cons r rest ih =>
      rcases h r (List.mem_cons_self r rest) with ⟨e, he⟩
      subst he
      simp only [updaterDelays, List.map_cons, List.length_cons,
        List.replicate_succ, hdelay]
      have := ih (fun x hx => h x (List.mem_cons_of_mem _ hx))
      simpa [updaterDelays] using this

/-- C9. In the background updater loops, a failed refresh is followed by
the 1-minute retry delay (not the nominal period) and the retries repeat —
over any run of consecutive failures every wait is the retry delay — while
a successful refresh is followed by the nominal period: 4 hours for the
geo-location loop and 24 hours for the bandwidth loop. -/
theorem c9_retry_then_nominal_period (e : String) (g : GeoLocation)
    (b : Bandwidth) (gouts : List (Except String GeoLocation))
    (bouts : List (Except String Bandwidth))
    (hg : ∀ r ∈ gouts, ∃ e, r = .error e)
    (hb : ∀ r ∈ bouts, ∃ e, r = .error e) :
    geoUpdaterDelay (.error e) = retryDelay ∧
    bwUpdaterDelay (.error e) = retryDelay ∧
    retryDelay = 60 ∧
    geoUpdaterDelay (.ok g) = geoTTL ∧ geoTTL = 4 * 3600 ∧
    bwUpdaterDelay (.ok b) = bwTTL ∧ bwTTL = 24 * 3600 ∧
    updaterDelays geoUpdaterDelay gouts =
      List.replicate gouts.length retryDelay ∧
    updaterDelays bwUpdaterDelay bouts =
      List.replicate bouts.length retryDelay :=
  ⟨rfl, rfl, rfl, rfl, rfl, rfl, rfl,
   updaterDelays_all_error geoUpdaterDelay (fun _ => rfl) gouts hg,
   updaterDelays_all_error bwUpdaterDelay (fun _ => rfl) bouts hb⟩

/-- Witness for C9: two consecutive failures then a success in each loop. -/
theorem c9_witness :
    updaterDelays geoUpdaterDelay [.error "a", .error "b"] = [60, 60] ∧
    updaterDelays bwUpdaterDelay [.error "a"] = [60] ∧
    geoUpdaterDelay (.ok geo0) = 4 * 3600 ∧
    bwUpdaterDelay (.ok bw0) = 24 * 3600 := by
  have h := c9_retry_then_nominal_period "x" geo0 bw0
    [.error "a", .error "b"] [.error "a"]
    (by
      intro r hr
      simp only [List.mem_cons, List.not_mem_nil, or_false] at hr
      rcases hr with h | h <;> exact ⟨_, h⟩)
    (by
      intro r hr
      simp only [List.mem_cons, List.not_mem_nil, or_false] at hr
      exact ⟨_, hr⟩)
  exact ⟨h.2.2.2.2.2.2.2.1, h.2.2.2.2.2.2.2.2, h.2.2.2.1, h.2.2.2.2.2.1⟩

/-- C6. A heartbeat sent while unregistered performs exactly one
registration call first — the trace begins with the register call and
contains it exactly once — and when that registration fails no heartbeat
POST is made and the registration error propagates to the caller. -/
theorem c6_register_before_heartbeat (managerIP : String) (st : RegState)
    (regHTTP : RegHTTP) (hbHTTP : Option Nat)
    (hmip : ¬ managerIP = "") (hreg : st.registered = false) :
    ((SendHeartbeat managerIP st regHTTP hbHTTP).2.2).head? =
      some .registerCall ∧
    ((SendHeartbeat managerIP st regHTTP hbHTTP).2.2).count .registerCall = 1 ∧
    (∀ r, (RegisterNode managerIP st regHTTP).1 = .error r →
      (SendHeartbeat managerIP st regHTTP hbHTTP).2.2 = [.registerCall] ∧
      (SendHeartbeat managerIP st regHTTP hbHTTP).1 =
        .error ("cannot send heartbeat, node not registered: " ++ r)) := by
  rcases hrn : RegisterNode managerIP st regHTTP with ⟨res, st'⟩
  cases res with
  | error msg =>
      refine ⟨?_, ?_, ?_⟩ <;>
        simp [SendHeartbeat, hmip, hreg, hrn, List.count_cons]
  | ok u =>
      refine ⟨?_, ?_, ?_⟩
      · cases hbHTTP with
        | none => simp [SendHeartbeat, hmip, hreg, hrn]
        | some status =>
            by_cases hs : (status != 200) = true <;>
              simp [SendHeartbeat, hmip, hreg, hrn, hs]
      · cases hbHTTP with
        | none => simp [SendHeartbeat, hmip, hreg, hrn, List.count_cons]
        | some status =>
            by_cases hs : (status != 200) = true <;>
              simp [SendHeartbeat, hmip, hreg, hrn, hs, List.count_cons]
      · intro r hr
        simp only [hrn] at hr
        cases hr

/-- Witness for C6: unregistered state, unreachable registration endpoint;
the heartbeat performs the one register call, sends nothing, and fails. -/
theorem c6_witness :
    (SendHeartbeat "10.0.0.7" ⟨false⟩ .unreachable none).2.2 =
      [RegAction.registerCall] ∧
    (SendHeartbeat "10.0.0.7" ⟨false⟩ .unreachable none).1 =
      .error ("cannot send heartbeat, node not registered: " ++
        "failed to connect to manager") :=
  (c6_register_before_heartbeat "10.0.0.7" ⟨false⟩ .unreachable none
    (by decide) rfl).2.2 "failed to connect to manager" rfl

/-- The registration flag survives a `RegisterNode` call (helper). -/
theorem RegisterNode_state_mono (managerIP : String) (st : RegState)
    (http : RegHTTP) (h : st.registered = true) :
    (RegisterNode managerIP st http).2.registered = true := by
  unfold RegisterNode
  by_cases hm : managerIP = ""
  · simp [hm, h]
  · cases http with
    | unreachable => simp [hm, h]
    | response status decodeOk =>
        by_cases hs : (status != 200) = true <;> cases decodeOk <;>
          simp [hm, hs, h]

/-- The registration flag survives a `SendHeartbeat` call (helper). -/
theorem SendHeartbeat_state_mono (managerIP : String) (st : RegState)
    (regHTTP : RegHTTP) (hbHTTP : Option Nat) (h : st.registered = true) :
    (SendHeartbeat managerIP st regHTTP hbHTTP).2.1.registered = true := by
  unfold SendHeartbeat
  by_cases hm : managerIP = ""
  · simp [hm, h]
  · cases hbHTTP with
    | none => simp [hm, h]
    | some status =>
        by_cases hs : (status != 200) = true <;> simp [hm, hs, h]

/-- The registration flag survives any sequence of Manager operations
(helper). -/
theorem runOps_state_mono (managerIP : String) (st : RegState)
    (ops : List MgrOp) (h : st.registered = true) :
    (runOps managerIP st ops).registered = true := by
  induction ops generalizing st with
  | nil => exact h
  | cons op rest ih =>
      cases op with
      | register http =>
          exact ih _ (RegisterNode_state_mono managerIP st http h)
      | heartbeat regHTTP hbHTTP =>
          exact ih _ (SendHeartbeat_state_mono managerIP st regHTTP hbHTTP h)

/-- C7. The `registered` flag is set to true by `RegisterNode` exactly when
the round trip fully succeeds (manager configured, status 200, response
parsed — equivalently the call returns success) or it was already true;
and it is monotone for the process lifetime: once `IsRegistered` reports
true, it still reports true after any sequence of register / heartbeat
operations, whatever their outcomes. -/
theorem c7_registration_monotonic (managerIP : String) (st : RegState)
    (http : RegHTTP) (ops : List MgrOp) :
    ((RegisterNode managerIP st http).2.registered = true ↔
      st.registered = true ∨
        (¬ managerIP = "" ∧ http = .response 200 true ∧
          (RegisterNode managerIP st http).1 = .ok ())) ∧
    (IsRegistered st = true → IsRegistered (runOps managerIP st ops) = true) := by
  constructor
  · unfold RegisterNode
    by_cases hm : managerIP = ""
    · simp [hm]
    · cases http with
      | unreachable => simp [hm]
      | response status decodeOk =>
          by_cases hs : (status != 200) = true
          · have hne : ¬ status = 200 := by simpa [bne_iff_ne] using hs
            cases decodeOk <;> simp [hm, hs, hne]
          · have heq : status = 200 := by simpa [bne_iff_ne] using hs
            subst heq
            cases decodeOk <;> simp [hm, hs]
  · intro h
    exact runOps_state_mono managerIP st ops h

/-- Witness for C7: a successful registration flips the flag, and the flag
stays true across a later failing heartbeat and failing registration. -/
theorem c7_witness :
    (RegisterNode "10.0.0.7" ⟨false⟩ (.response 200 true)).2.registered = true ∧
    IsRegistered (runOps "10.0.0.7" ⟨true⟩
      [.heartbeat .unreachable none, .register .unreachable]) = true :=
  ⟨(c7_registration_monotonic "10.0.0.7" ⟨false⟩ (.response 200 true) []).1.mpr
      (Or.inr ⟨by decide, rfl, rfl⟩),
   (c7_registration_monotonic "10.0.0.7" ⟨true⟩ .unreachable
      [.heartbeat .unreachable none, .register .unreachable]).2 rfl⟩

end RayAI
